import Mathlib

/-!
Shallow embedding of `src/src/DynSLAM/Input.h` (class `dynslam::Input`), the
frame-ingestion layer of DynSLAM, together with proofs of its specified
properties.  Definitions mirror the C++ source; the bodies of the methods that
are only declared in the header (they live in `Input.cc`, which is not part of
the sources) are modelled from the specification, and each such definition says
so in its doc comment.
-/

namespace DynSLAM

/-- Embedding of `Input::Config` (Input.h, lines 21-48): the dataset layout
descriptor.  Field order and names follow the C++ struct. -/
structure Config where
  dataset_name : String
  left_gray_folder : String
  right_gray_folder : String
  left_color_folder : String
  right_color_folder : String
  fname_format : String
  itm_calibration_fname : String
  depth_folder : String
  depth_fname_format : String
  read_depth : Bool
  segmentation_folder : String
  odometry_oxts : Bool
  odometry_fname : String
  velodyne_folder : String
  velodyne_fname_format : String
deriving DecidableEq

/-- Embedding of `Input::KittiOdometryConfig()` (Input.h, lines 51-74): the
baseline KITTI odometry layout preset.  Every field is assigned exactly the
literal the C++ factory assigns. -/
def KittiOdometryConfig : Config :=
  { dataset_name := "kitti-odometry"
  , left_gray_folder := "image_0"
  , right_gray_folder := "image_1"
  , left_color_folder := "image_2"
  , right_color_folder := "image_3"
  , fname_format := "%06d.png"
  , itm_calibration_fname := "itm-calib.txt"
  , depth_folder := "precomputed-depth/Frames"
  , depth_fname_format := "%04d.pgm"
  , read_depth := true
  , segmentation_folder := "seg_image_2/mnc"
  , odometry_oxts := false
  , odometry_fname := "ground-truth-poses.txt"
  , velodyne_folder := "velodyne"
  , velodyne_fname_format := "%06d.bin" }

/-- Embedding of `Input::KittiOdometryDispnetConfig()` (Input.h, lines 76-82):
copies the baseline preset and overrides only the depth-stream fields. -/
def KittiOdometryDispnetConfig : Config :=
  { KittiOdometryConfig with
      depth_folder := "precomputed-depth-dispnet"
    , depth_fname_format := "%06d.pfm"
    , read_depth := false }

/-- Numeric value of a list of decimal digit characters (most significant
first), as `printf` width parsing reads it. -/
def digitsToNat (cs : List Char) : Nat :=
  cs.foldl (fun a c => a * 10 + (c.toNat - 48)) 0

/-- Zero-or-space padding of a single integer to a field width, following
`printf` `%d` semantics: the minus sign of a negative value is emitted first
and counts towards the width; with the `0` flag the padding zeros go between
the sign and the digits. -/
def padInt (zeroPad : Bool) (width : Nat) (i : Int) : List Char :=
  let ds := (toString i.natAbs).data
  let sign : List Char := if i < 0 then ['-'] else []
  let body := sign ++ ds
  if width ≤ body.length then body
  else if zeroPad then sign ++ List.replicate (width - body.length) '0' ++ ds
  else List.replicate (width - body.length) ' ' ++ body

/-- Accumulating the decimal width digits of a `printf` specifier: consumes
digit characters into `w` and expects the conversion `d` next; anything else
means the specifier is malformed. -/
def parseSpecFrom (zp : Bool) (w : Nat) : List Char → Option (Bool × Nat × List Char)
  | [] => none
  | c :: t =>
    if c.isDigit then parseSpecFrom zp (w * 10 + (c.toNat - 48)) t
    else if c = 'd' then some (zp, w, t) else none

/-- Parses what follows a `%` in a `printf`-style template: an optional `0`
flag, a decimal width, then the conversion `d`.  Returns the flag, the width
and the remainder of the template, or `none` if this is not a `%...d`
specifier. -/
def parseSpec : List Char → Option (Bool × Nat × List Char)
  | [] => none
  | c :: t => if c = '0' then parseSpecFrom true 0 t else parseSpecFrom false 0 (c :: t)

/-- Substitutes the integer `i` for the first `%...d` specifier of the
template; characters other than a well-formed specifier are copied verbatim. -/
def substFirst : List Char → Int → List Char
  | [], _ => []
  | c :: rest, i =>
    if c = '%' then
      match parseSpec rest with
      | some (zp, w, tail) => padInt zp w i ++ tail
      | none => c :: substFirst rest i
    else c :: substFirst rest i

/-- Modelled from the spec: `utils::Format` (declared in `src/DynSLAM/Utils.h`,
which is not among the sources) as used by `Input::GetFrameName` — a
`printf`-style single-integer substitution into a filename template, with
width/zero-padding semantics preserved exactly (spec sections 4.2 and 6). -/
def Format (fmt : String) (i : Int) : String :=
  ⟨substFirst fmt.data i⟩

/-- Embedding of `Input::GetFrameName` (Input.h, lines 173-178): pure path
composition `root + "/" + folder + "/" + Format(fname_format, frame_idx)`. -/
def GetFrameName (root folder fname_format : String) (frame_idx : Int) : String :=
  root ++ "/" ++ folder ++ "/" ++ Format fname_format frame_idx

/-- Embedding of the resolution part of `ITMLib::Objects::ITMIntrinsics` used
by `Input` (Input.h, lines 97-98 and 114-122): per the spec (section 3) the
resolutions are positive integers, so `sizeX`/`sizeY` are embedded as `Nat`. -/
structure Intrinsics where
  sizeX : Nat
  sizeY : Nat
deriving DecidableEq

/-- Embedding of the part of `ITMLib::Objects::ITMRGBDCalib` that `Input`
reads: the color-sensor and depth-sensor intrinsics. -/
structure ITMRGBDCalib where
  intrinsics_rgb : Intrinsics
  intrinsics_d : Intrinsics
deriving DecidableEq

/-- Embedding of `cv::Size2i` as used by `GetRgbSize`/`GetDepthSize`:
`cv::Size2i(x, y)` has width `x` and height `y`. -/
structure Size2i where
  width : Nat
  height : Nat
deriving DecidableEq

/-- Embedding of a `cv::Mat` buffer as `Input` uses it: a row count, a column
count, and the stored pixel data (whose element type is irrelevant to the
properties proved here, so pixels are plain integers). -/
structure Image where
  rows : Nat
  cols : Nat
  pix : List Int
deriving DecidableEq

/-- Model of the on-disk dataset: maps a file path to the image decodable from
the file there, `none` when the file is missing or fails to decode. -/
def FileSystem : Type := String → Option Image

/-- Embedding of the state held by a `dynslam::Input` object (Input.h, lines
155-171).  `DepthProvider*` is an opaque borrowed pointer, embedded as a `Nat`
handle; `frame_idx_` is a C++ `int`, embedded as `Int`. -/
structure InputState where
  dataset_folder : String
  config : Config
  depth_provider : Nat
  frame_idx : Int
  calibration : ITMRGBDCalib
  left_frame_color_buf : Image
  right_frame_color_buf : Image
  depth_buf : Image
  left_frame_gray_buf : Image
  right_frame_gray_buf : Image

/-- Embedding of the `Input` constructor (Input.h, lines 85-99): stores the
folder, config, provider, offset and calibration, and allocates `depth_buf_`
as `cv::Mat1s(intrinsics_d.sizeY, intrinsics_d.sizeX)` — `sizeY` rows by
`sizeX` columns (contents uninitialised; zeros here).  The remaining `cv::Mat`
buffers are default-constructed empty. -/
def Input.init (dataset_folder : String) (config : Config) (depth_provider : Nat)
    (calibration : ITMRGBDCalib) (frame_offset : Int) : InputState :=
  { dataset_folder := dataset_folder
  , config := config
  , depth_provider := depth_provider
  , frame_idx := frame_offset
  , calibration := calibration
  , left_frame_color_buf := ⟨0, 0, []⟩
  , right_frame_color_buf := ⟨0, 0, []⟩
  , depth_buf := ⟨calibration.intrinsics_d.sizeY, calibration.intrinsics_d.sizeX,
                  List.replicate (calibration.intrinsics_d.sizeY * calibration.intrinsics_d.sizeX) 0⟩
  , left_frame_gray_buf := ⟨0, 0, []⟩
  , right_frame_gray_buf := ⟨0, 0, []⟩ }

/-- Embedding of `Input::GetRgbSize` (Input.h, lines 114-117). -/
def GetRgbSize (s : InputState) : Size2i :=
  ⟨s.calibration.intrinsics_rgb.sizeX, s.calibration.intrinsics_rgb.sizeY⟩

/-- Embedding of `Input::GetDepthSize` (Input.h, lines 119-122). -/
def GetDepthSize (s : InputState) : Size2i :=
  ⟨s.calibration.intrinsics_d.sizeX, s.calibration.intrinsics_d.sizeY⟩

/-- Embedding of `Input::GetCurrentFrame` (Input.h, lines 144-146). -/
def GetCurrentFrame (s : InputState) : Int :=
  s.frame_idx

/-- Embedding of `Input::GetDepthProvider` (Input.h, lines 134-136). -/
def GetDepthProvider (s : InputState) : Nat :=
  s.depth_provider

/-- Embedding of `Input::SetDepthProvider` (Input.h, lines 138-140). -/
def SetDepthProvider (depth_provider : Nat) (s : InputState) : InputState :=
  { s with depth_provider := depth_provider }

/-- Embedding of `Input::GetConfig` (Input.h, lines 151-153). -/
def GetConfig (s : InputState) : Config :=
  s.config

/-- Index of the last occurrence of `c`, embedding `std::string::rfind(c)`:
`some i` when the last occurrence is at index `i`, `none` for `npos`. -/
def rfindChar (c : Char) : List Char → Option Nat
  | [] => none
  | x :: xs =>
    match rfindChar c xs with
    | some i => some (i + 1)
    | none => if x = c then some 0 else none

/-- Embedding of `Input::GetSequenceName` (Input.h, lines 126-128):
`dataset_folder_.substr(dataset_folder_.rfind('/') + 1)`.  `rfind` returns an
unsigned `size_t`, so when `'/'` does not occur the `npos + 1` wraps around to
`0` and `substr(0)` is the whole string; the `none` branch models exactly that
wraparound. -/
def GetSequenceName (s : InputState) : String :=
  ⟨s.dataset_folder.data.drop
    (match rfindChar '/' s.dataset_folder.data with
     | some i => i + 1
     | none => 0)⟩

/-- Embedding of `Input::GetDatasetIdentifier` (Input.h, lines 130-132). -/
def GetDatasetIdentifier (s : InputState) : String :=
  s.config.dataset_name ++ "-" ++ GetSequenceName s

/-- Loading one stream file into a fixed-size buffer: the file must exist and
decode (`fs path = some img`) and the decoded dimensions must match the
expected buffer dimensions from the calibration descriptor, otherwise the
stream fails (spec section 4.3: "file missing, dimension mismatch, decode
failure"). -/
def readStream (fs : FileSystem) (path : String) (expected : Size2i) : Option Image :=
  match fs path with
  | none => none
  | some img => if img.rows = expected.height ∧ img.cols = expected.width then some img else none

/-- A model of the pluggable `DepthProvider` behaviour (spec section 9): from
the provider handle and the fresh grayscale pair, a depth map or a failure. -/
def DepthStrategy : Type := Nat → Image → Image → Option Image

/-- Modelled from the spec: the depth-acquisition step of `Input::ReadNextFrame`
(the method is declared at Input.h line 105; its body, in `Input.cc`, is not
among the sources).  Per spec sections 4.3 and 4 "Depth acquisition policy":
when `read_depth` is true the depth buffer is populated by decoding a
precomputed file at the depth stream's path; when false, the reader delegates
to the Depth Production Strategy with the fresh stereo grayscale pair.  Either
way the result must fit the fixed depth buffer, whose dimensions come from the
calibration descriptor. -/
def acquireDepth (fs : FileSystem) (strat : DepthStrategy) (s : InputState)
    (grayL grayR : Image) : Option Image :=
  if s.config.read_depth then
    readStream fs
      (GetFrameName s.dataset_folder s.config.depth_folder s.config.depth_fname_format s.frame_idx)
      (GetDepthSize s)
  else
    match strat s.depth_provider grayL grayR with
    | none => none
    | some d =>
      if d.rows = (GetDepthSize s).height ∧ d.cols = (GetDepthSize s).width then some d else none

/-- Modelled from the spec: the loading phase of `Input::ReadNextFrame` (body
in `Input.cc`, not among the sources).  Per spec section 4.3 it loads every
enabled stream for the current frame index, in dependency order: grayscale
pair, color pair, depth. -/
def loadAll (fs : FileSystem) (strat : DepthStrategy) (s : InputState) :
    Option (Image × Image × Image × Image × Image) :=
  (readStream fs
      (GetFrameName s.dataset_folder s.config.left_gray_folder s.config.fname_format s.frame_idx)
      (GetRgbSize s)).bind fun grayL =>
  (readStream fs
      (GetFrameName s.dataset_folder s.config.right_gray_folder s.config.fname_format s.frame_idx)
      (GetRgbSize s)).bind fun grayR =>
  (readStream fs
      (GetFrameName s.dataset_folder s.config.left_color_folder s.config.fname_format s.frame_idx)
      (GetRgbSize s)).bind fun colorL =>
  (readStream fs
      (GetFrameName s.dataset_folder s.config.right_color_folder s.config.fname_format s.frame_idx)
      (GetRgbSize s)).bind fun colorR =>
  (acquireDepth fs strat s grayL grayR).map fun depth =>
  (grayL, grayR, colorL, colorR, depth)

/-- Modelled from the spec: `Input::ReadNextFrame` (declared at Input.h line
105; body in `Input.cc`, not among the sources).  Per spec section 4.3: on
full success every buffer is repopulated in place, the frame index is
incremented and the call returns true; on any stream failing, the call returns
false and must not advance the frame index, leaving the reader retryable at
the same index. -/
def ReadNextFrame (fs : FileSystem) (strat : DepthStrategy) (s : InputState) :
    Bool × InputState :=
  match loadAll fs strat s with
  | some (grayL, grayR, colorL, colorR, depth) =>
    (true, { s with
        frame_idx := s.frame_idx + 1
      , left_frame_gray_buf := grayL
      , right_frame_gray_buf := grayR
      , left_frame_color_buf := colorL
      , right_frame_color_buf := colorR
      , depth_buf := depth })
  | none => (false, s)

/-- Iterated successful reads: `readN fs strat s n = some s'` exactly when `n`
consecutive `ReadNextFrame` calls from state `s` all return true, ending in
state `s'` (and no other mutating calls happen in between). -/
def readN (fs : FileSystem) (strat : DepthStrategy) (s : InputState) :
    Nat → Option InputState
  | 0 => some s
  | n + 1 =>
    match ReadNextFrame fs strat s with
    | (true, s') => readN fs strat s' n
    | (false, _) => none

/-- Modelled from the spec: `Input::HasMoreImages` (declared at Input.h line
101; body in `Input.cc`, not among the sources).  Per spec section 4.3: true
iff the files for the current frame index are expected to exist, determined by
a lightweight existence probe (not a full read) against the mandatory image
streams; must not mutate state.  The result is embedded as a pair so that
non-mutation is a provable statement about the returned state. -/
def HasMoreImages (fs : FileSystem) (s : InputState) : Bool × InputState :=
  ((fs (GetFrameName s.dataset_folder s.config.left_gray_folder s.config.fname_format s.frame_idx)).isSome
    && (fs (GetFrameName s.dataset_folder s.config.right_gray_folder s.config.fname_format s.frame_idx)).isSome
    && (fs (GetFrameName s.dataset_folder s.config.left_color_folder s.config.fname_format s.frame_idx)).isSome
    && (fs (GetFrameName s.dataset_folder s.config.right_color_folder s.config.fname_format s.frame_idx)).isSome,
   s)

/-- Modelled from the spec: `Input::GetCvImages` (declared at Input.h line 109;
body in `Input.cc`, not among the sources).  Per spec section 4.3 it returns
non-owning references to the current RGB and depth buffers. -/
def GetCvImages (s : InputState) : Image × Image :=
  (s.left_frame_color_buf, s.depth_buf)

/-- Modelled from the spec: `Input::GetCvStereoGray` (declared at Input.h line
112; body in `Input.cc`, not among the sources).  Per spec section 4.3 it
returns non-owning references to the current grayscale buffers. -/
def GetCvStereoGray (s : InputState) : Image × Image :=
  (s.left_frame_gray_buf, s.right_frame_gray_buf)

/-! ### Theorems -/

/-- C3: `KittiOdometryDispnetConfig` equals `KittiOdometryConfig` in every
field except the explicitly overridden depth-stream fields (`depth_folder`,
`depth_fname_format`, `read_depth`), and it genuinely differs from the base in
each of those three overridden fields. -/
theorem kittiOdometryDispnet_differs_only_in_depth_fields :
    KittiOdometryDispnetConfig.dataset_name = KittiOdometryConfig.dataset_name ∧
    KittiOdometryDispnetConfig.left_gray_folder = KittiOdometryConfig.left_gray_folder ∧
    KittiOdometryDispnetConfig.right_gray_folder = KittiOdometryConfig.right_gray_folder ∧
    KittiOdometryDispnetConfig.left_color_folder = KittiOdometryConfig.left_color_folder ∧
    KittiOdometryDispnetConfig.right_color_folder = KittiOdometryConfig.right_color_folder ∧
    KittiOdometryDispnetConfig.fname_format = KittiOdometryConfig.fname_format ∧
    KittiOdometryDispnetConfig.itm_calibration_fname = KittiOdometryConfig.itm_calibration_fname ∧
    KittiOdometryDispnetConfig.segmentation_folder = KittiOdometryConfig.segmentation_folder ∧
    KittiOdometryDispnetConfig.odometry_oxts = KittiOdometryConfig.odometry_oxts ∧
    KittiOdometryDispnetConfig.odometry_fname = KittiOdometryConfig.odometry_fname ∧
    KittiOdometryDispnetConfig.velodyne_folder = KittiOdometryConfig.velodyne_folder ∧
    KittiOdometryDispnetConfig.velodyne_fname_format = KittiOdometryConfig.velodyne_fname_format ∧
    KittiOdometryDispnetConfig.depth_folder ≠ KittiOdometryConfig.depth_folder ∧
    KittiOdometryDispnetConfig.depth_fname_format ≠ KittiOdometryConfig.depth_fname_format ∧
    KittiOdometryDispnetConfig.read_depth ≠ KittiOdometryConfig.read_depth := by
  refine ⟨rfl, rfl, rfl, rfl, rfl, rfl, rfl, rfl, rfl, rfl, rfl, rfl, ?_, ?_, ?_⟩ <;> decide

/-- C7: setting the depth provider and reading it back is the identity, and it
leaves the frame index, the configuration and the declared buffer dimensions
untouched. -/
theorem setDepthProvider_roundtrip (s : InputState) (p : Nat) :
    GetDepthProvider (SetDepthProvider p s) = p ∧
    GetCurrentFrame (SetDepthProvider p s) = GetCurrentFrame s ∧
    GetConfig (SetDepthProvider p s) = GetConfig s ∧
    GetRgbSize (SetDepthProvider p s) = GetRgbSize s ∧
    GetDepthSize (SetDepthProvider p s) = GetDepthSize s :=
  ⟨rfl, rfl, rfl, rfl, rfl⟩

/-- C9: the frame path resolver is deterministic — two calls with identical
root, folder, template and index arguments yield identical output strings. -/
theorem getFrameName_deterministic (r1 r2 f1 f2 t1 t2 : String) (i1 i2 : Int)
    (hr : r1 = r2) (hf : f1 = f2) (ht : t1 = t2) (hi : i1 = i2) :
    GetFrameName r1 f1 t1 i1 = GetFrameName r2 f2 t2 i2 := by
  subst hr hf ht hi
  rfl

/-- Witness for C9, at the KITTI left-grayscale stream of frame 7. -/
theorem getFrameName_deterministic_witness :
    GetFrameName "kitti/00" "image_0" "%06d.png" 7
      = GetFrameName "kitti/00" "image_0" "%06d.png" 7 :=
  getFrameName_deterministic "kitti/00" "kitti/00" "image_0" "image_0"
    "%06d.png" "%06d.png" 7 7 rfl rfl rfl rfl

/-- C1: a failed `ReadNextFrame` never advances the frame index — whatever
filesystem contents and depth strategy made it fail, `GetCurrentFrame`
afterwards still returns the same index. -/
theorem readNextFrame_failure_preserves_frame_index (fs : FileSystem)
    (strat : DepthStrategy) (s : InputState)
    (h : (ReadNextFrame fs strat s).1 = false) :
    GetCurrentFrame (ReadNextFrame fs strat s).2 = GetCurrentFrame s := by
  cases hl : loadAll fs strat s with
  | none => simp [ReadNextFrame, hl]
  | some v =>
    obtain ⟨grayL, grayR, colorL, colorR, depth⟩ := v
    simp [ReadNextFrame, hl] at h

/-- A dataset with no readable files at all. -/
def fsEmpty : FileSystem := fun _ => none

/-- A depth strategy that always fails. -/
def strat0 : DepthStrategy := fun _ _ _ => none

/-- A calibration declaring 2x1 color and depth resolutions. -/
def calib0 : ITMRGBDCalib := ⟨⟨2, 1⟩, ⟨2, 1⟩⟩

/-- A freshly constructed reader over the empty dataset. -/
def state0 : InputState := Input.init "kitti/00" KittiOdometryConfig 7 calib0 0

/-- Witness for C1: on the empty dataset, `ReadNextFrame` fails and the frame
index is unchanged. -/
theorem readNextFrame_failure_preserves_frame_index_witness :
    (ReadNextFrame fsEmpty strat0 state0).1 = false ∧
    GetCurrentFrame (ReadNextFrame fsEmpty strat0 state0).2 = GetCurrentFrame state0 :=
  ⟨rfl, readNextFrame_failure_preserves_frame_index fsEmpty strat0 state0 rfl⟩

/-- A successful `ReadNextFrame` increments the frame index by exactly one. -/
theorem readNextFrame_success_increments (fs : FileSystem) (strat : DepthStrategy)
    (s : InputState) (h : (ReadNextFrame fs strat s).1 = true) :
    GetCurrentFrame (ReadNextFrame fs strat s).2 = GetCurrentFrame s + 1 := by
  cases hl : loadAll fs strat s with
  | none => simp [ReadNextFrame, hl] at h
  | some v =>
    obtain ⟨grayL, grayR, colorL, colorR, depth⟩ := v
    simp [ReadNextFrame, GetCurrentFrame, hl]

/-- `n` consecutive successful reads advance the frame index by exactly `n`. -/
theorem readN_frame_idx (fs : FileSystem) (strat : DepthStrategy) :
    ∀ (n : Nat) (s s' : InputState), readN fs strat s n = some s' →
      s'.frame_idx = s.frame_idx + n := by
  intro n
  induction n with
  | zero =>
    intro s s' h
    simp only [readN, Option.some.injEq] at h
    subst h
    simp
  | succ n ih =>
    intro s s' h
    simp only [readN] at h
    cases hr : ReadNextFrame fs strat s with
    | mk b s1 =>
      rw [hr] at h
      cases b with
      | false => simp at h
      | true =>
        have h1 : s1.frame_idx = s.frame_idx + 1 := by
          have h2 := readNextFrame_success_increments fs strat s (by rw [hr])
          rw [hr] at h2
          exact h2
        have h3 := ih s1 s' h
        rw [h3, h1]
        push_cast
        ring

/-- C2: immediately after construction with offset `f0`, `GetCurrentFrame`
returns `f0`; after `N` calls to `ReadNextFrame` that each returned true (and
no other mutating calls), `GetCurrentFrame` returns `f0 + N`; and every
successful `ReadNextFrame` increments the frame index by exactly one. -/
theorem getCurrentFrame_after_init_and_reads (df : String) (cfg : Config) (dp : Nat)
    (calib : ITMRGBDCalib) (f0 : Int) (fs : FileSystem) (strat : DepthStrategy)
    (N : Nat) (s' : InputState)
    (h : readN fs strat (Input.init df cfg dp calib f0) N = some s') :
    GetCurrentFrame (Input.init df cfg dp calib f0) = f0 ∧
    GetCurrentFrame s' = f0 + N ∧
    (∀ t : InputState, (ReadNextFrame fs strat t).1 = true →
      GetCurrentFrame (ReadNextFrame fs strat t).2 = GetCurrentFrame t + 1) := by
  refine ⟨rfl, ?_, fun t ht => readNextFrame_success_increments fs strat t ht⟩
  have h1 := readN_frame_idx fs strat N (Input.init df cfg dp calib f0) s' h
  simpa [GetCurrentFrame, Input.init] using h1

/-- A 1-row by 2-column image, matching `calibA` below. -/
def imgA : Image := ⟨1, 2, [0, 0]⟩

/-- A dataset in which every path holds `imgA`. -/
def fsAll : FileSystem := fun _ => some imgA

/-- A depth strategy that always produces `imgA`. -/
def stratA : DepthStrategy := fun _ _ _ => some imgA

/-- A calibration declaring 2x1 color and depth resolutions. -/
def calibA : ITMRGBDCalib := ⟨⟨2, 1⟩, ⟨2, 1⟩⟩

/-- A reader over that dataset, constructed with frame offset 5. -/
def stateA : InputState := Input.init "data/kitti/06" KittiOdometryConfig 3 calibA 5

/-- The state after two successful reads from `stateA`. -/
def stateA2 : InputState := (readN fsAll stratA stateA 2).getD stateA

/-- Witness for C2: from offset 5, two successful reads land on frame 5 + 2. -/
theorem getCurrentFrame_after_init_and_reads_witness :
    readN fsAll stratA stateA 2 = some stateA2 ∧
    GetCurrentFrame stateA = 5 ∧
    GetCurrentFrame stateA2 = 5 + (2 : Nat) := by
  have h := getCurrentFrame_after_init_and_reads "data/kitti/06" KittiOdometryConfig 3
    calibA 5 fsAll stratA 2 stateA2 rfl
  exact ⟨rfl, h.1, h.2.1⟩

/-- A stream read that succeeds returns an image of exactly the expected
dimensions. -/
theorem readStream_dims (fs : FileSystem) (p : String) (sz : Size2i) (img : Image)
    (h : readStream fs p sz = some img) :
    img.rows = sz.height ∧ img.cols = sz.width := by
  unfold readStream at h
  split at h
  · simp at h
  · split at h
    next i heq hc =>
      obtain rfl : i = img := by injection h
      exact hc
    next => simp at h

/-- A successful depth acquisition returns a map of exactly the declared depth
dimensions, whichever acquisition mode is configured. -/
theorem acquireDepth_dims (fs : FileSystem) (strat : DepthStrategy) (s : InputState)
    (grayL grayR d : Image) (h : acquireDepth fs strat s grayL grayR = some d) :
    d.rows = (GetDepthSize s).height ∧ d.cols = (GetDepthSize s).width := by
  unfold acquireDepth at h
  by_cases hm : s.config.read_depth
  · rw [if_pos hm] at h
    exact readStream_dims _ _ _ _ h
  · rw [if_neg hm] at h
    split at h
    · simp at h
    · split at h
      next d0 heq hd =>
        obtain rfl : d0 = d := by injection h
        exact hd
      next => simp at h

/-- When the loading phase succeeds, every loaded image has exactly the
expected dimensions from the calibration descriptor. -/
theorem loadAll_dims (fs : FileSystem) (strat : DepthStrategy) (s : InputState)
    (grayL grayR colorL colorR d : Image)
    (h : loadAll fs strat s = some (grayL, grayR, colorL, colorR, d)) :
    (grayL.rows = (GetRgbSize s).height ∧ grayL.cols = (GetRgbSize s).width) ∧
    (grayR.rows = (GetRgbSize s).height ∧ grayR.cols = (GetRgbSize s).width) ∧
    (colorL.rows = (GetRgbSize s).height ∧ colorL.cols = (GetRgbSize s).width) ∧
    (colorR.rows = (GetRgbSize s).height ∧ colorR.cols = (GetRgbSize s).width) ∧
    (d.rows = (GetDepthSize s).height ∧ d.cols = (GetDepthSize s).width) := by
  unfold loadAll at h
  rw [Option.bind_eq_some] at h
  obtain ⟨a1, ha1, h⟩ := h
  rw [Option.bind_eq_some] at h
  obtain ⟨a2, ha2, h⟩ := h
  rw [Option.bind_eq_some] at h
  obtain ⟨a3, ha3, h⟩ := h
  rw [Option.bind_eq_some] at h
  obtain ⟨a4, ha4, h⟩ := h
  rw [Option.map_eq_some'] at h
  obtain ⟨a5, ha5, h⟩ := h
  obtain ⟨rfl, rfl, rfl, rfl, rfl⟩ :
      a1 = grayL ∧ a2 = grayR ∧ a3 = colorL ∧ a4 = colorR ∧ a5 = d := by
    simpa [Prod.ext_iff] using h
  exact ⟨readStream_dims _ _ _ _ ha1, readStream_dims _ _ _ _ ha2,
    readStream_dims _ _ _ _ ha3, readStream_dims _ _ _ _ ha4,
    acquireDepth_dims _ _ _ _ _ _ ha5⟩

/-- C5: buffer dimensions are fixed at construction from the calibration
descriptor.  The constructed depth buffer has `intrinsics_d.sizeY` rows and
`intrinsics_d.sizeX` columns; whenever `ReadNextFrame` succeeds, the buffers
returned by `GetCvImages` and `GetCvStereoGray` have exactly the dimensions
`GetRgbSize` (color and grayscale) and `GetDepthSize` (depth) declared before
the read, and the declared dimensions themselves are unchanged by the read. -/
theorem buffer_dims_fixed (fs : FileSystem) (strat : DepthStrategy) (s s' : InputState)
    (h : ReadNextFrame fs strat s = (true, s')) :
    ((GetCvImages s').1.rows = (GetRgbSize s).height ∧
      (GetCvImages s').1.cols = (GetRgbSize s).width) ∧
    ((GetCvImages s').2.rows = (GetDepthSize s).height ∧
      (GetCvImages s').2.cols = (GetDepthSize s).width) ∧
    ((GetCvStereoGray s').1.rows = (GetRgbSize s).height ∧
      (GetCvStereoGray s').1.cols = (GetRgbSize s).width) ∧
    ((GetCvStereoGray s').2.rows = (GetRgbSize s).height ∧
      (GetCvStereoGray s').2.cols = (GetRgbSize s).width) ∧
    GetRgbSize s' = GetRgbSize s ∧
    GetDepthSize s' = GetDepthSize s ∧
    (∀ (df : String) (cfg : Config) (dp : Nat) (calib : ITMRGBDCalib) (f0 : Int),
      (Input.init df cfg dp calib f0).depth_buf.rows = calib.intrinsics_d.sizeY ∧
      (Input.init df cfg dp calib f0).depth_buf.cols = calib.intrinsics_d.sizeX) := by
  cases hl : loadAll fs strat s with
  | none =>
    rw [ReadNextFrame, hl] at h
    simp at h
  | some v =>
    obtain ⟨grayL, grayR, colorL, colorR, depth⟩ := v
    have hd := loadAll_dims fs strat s grayL grayR colorL colorR depth hl
    rw [ReadNextFrame, hl] at h
    obtain ⟨-, rfl⟩ : True ∧ _ = s' := ⟨trivial, (Prod.ext_iff.mp h).2⟩
    exact ⟨⟨hd.2.2.1.1, hd.2.2.1.2⟩, ⟨hd.2.2.2.2.1, hd.2.2.2.2.2⟩,
      ⟨hd.1.1, hd.1.2⟩, ⟨hd.2.1.1, hd.2.1.2⟩, rfl, rfl,
      fun _ _ _ _ _ => ⟨rfl, rfl⟩⟩

/-- The state after one successful read from `stateA`. -/
def stateA1 : InputState := (ReadNextFrame fsAll stratA stateA).2

/-- Witness for C5: over the all-`imgA` dataset, the read succeeds and every
returned buffer reports the calibration dimensions. -/
theorem buffer_dims_fixed_witness :
    ReadNextFrame fsAll stratA stateA = (true, stateA1) ∧
    (GetCvImages stateA1).1.rows = (GetRgbSize stateA).height ∧
    (GetCvImages stateA1).2.cols = (GetDepthSize stateA).width ∧
    (GetCvStereoGray stateA1).1.rows = (GetRgbSize stateA).height := by
  have h := buffer_dims_fixed fsAll stratA stateA stateA1 rfl
  exact ⟨rfl, h.1.1, h.2.1.2, h.2.2.1.1⟩

/-- C6: `HasMoreImages` never mutates the reader state, and its verdict is a
lightweight existence probe of the mandatory image streams at the current
frame index — it depends only on whether those files exist, not on their
contents. -/
theorem hasMoreImages_pure_probe (fs fs' : FileSystem) (s : InputState)
    (h1 : (fs (GetFrameName s.dataset_folder s.config.left_gray_folder
            s.config.fname_format (GetCurrentFrame s))).isSome
        = (fs' (GetFrameName s.dataset_folder s.config.left_gray_folder
            s.config.fname_format (GetCurrentFrame s))).isSome)
    (h2 : (fs (GetFrameName s.dataset_folder s.config.right_gray_folder
            s.config.fname_format (GetCurrentFrame s))).isSome
        = (fs' (GetFrameName s.dataset_folder s.config.right_gray_folder
            s.config.fname_format (GetCurrentFrame s))).isSome)
    (h3 : (fs (GetFrameName s.dataset_folder s.config.left_color_folder
            s.config.fname_format (GetCurrentFrame s))).isSome
        = (fs' (GetFrameName s.dataset_folder s.config.left_color_folder
            s.config.fname_format (GetCurrentFrame s))).isSome)
    (h4 : (fs (GetFrameName s.dataset_folder s.config.right_color_folder
            s.config.fname_format (GetCurrentFrame s))).isSome
        = (fs' (GetFrameName s.dataset_folder s.config.right_color_folder
            s.config.fname_format (GetCurrentFrame s))).isSome) :
    (HasMoreImages fs s).2 = s ∧
    (HasMoreImages fs s).1 = (HasMoreImages fs' s).1 := by
  refine ⟨rfl, ?_⟩
  simp only [GetCurrentFrame] at h1 h2 h3 h4
  simp only [HasMoreImages, h1, h2, h3, h4]

/-- Witness for C6: on the empty dataset, `HasMoreImages` leaves the state as
constructed and agrees with itself. -/
theorem hasMoreImages_pure_probe_witness :
    (HasMoreImages fsEmpty state0).2 = state0 ∧
    (HasMoreImages fsEmpty state0).1 = (HasMoreImages fsEmpty state0).1 :=
  hasMoreImages_pure_probe fsEmpty fsEmpty state0 rfl rfl rfl rfl

/-- Over a run of digit characters, the width parser folds them into the
accumulated width and then finds the `d` conversion. -/
theorem parseSpecFrom_digits (zp : Bool) (suf : List Char) :
    ∀ (ws : List Char) (acc : Nat), (∀ c ∈ ws, c.isDigit = true) →
      parseSpecFrom zp acc (ws ++ 'd' :: suf)
        = some (zp, ws.foldl (fun a c => a * 10 + (c.toNat - 48)) acc, suf) := by
  intro ws
  induction ws with
  | nil =>
    intro acc h
    simp [parseSpecFrom]
  | cons c t ih =>
    intro acc h
    have hc : c.isDigit = true := h c (List.mem_cons_self c t)
    simp only [List.cons_append, parseSpecFrom, if_pos hc, List.foldl_cons]
    exact ih _ fun x hx => h x (List.mem_cons_of_mem c hx)

/-- Parsing a `%0<width>d` specifier: a `0` flag, a digit-string width, the
`d` conversion, then the rest of the template. -/
theorem parseSpec_eval (ws suf : List Char) (h : ∀ c ∈ ws, c.isDigit = true) :
    parseSpec ('0' :: (ws ++ 'd' :: suf)) = some (true, digitsToNat ws, suf) := by
  simp only [parseSpec, if_pos rfl]
  exact parseSpecFrom_digits true suf ws 0 h

/-- `substFirst` copies a `%`-free prefix verbatim. -/
theorem substFirst_append_no_percent (pre rest : List Char) (i : Int)
    (h : '%' ∉ pre) :
    substFirst (pre ++ rest) i = pre ++ substFirst rest i := by
  induction pre with
  | nil => rfl
  | cons c t ih =>
    have hc : ¬(c = '%') := fun hcc => h (hcc ▸ List.mem_cons_self c t)
    have ht : '%' ∉ t := fun hm => h (List.mem_cons_of_mem c hm)
    simp only [List.cons_append, substFirst, if_neg hc, List.append_eq, ih ht]

/-- Substituting into a well-formed `pre ++ "%0" ++ width ++ "d" ++ suf`
template replaces exactly the specifier with the zero-padded integer. -/
theorem substFirst_eval (pre ws suf : List Char) (i : Int)
    (hpre : '%' ∉ pre) (hws : ∀ c ∈ ws, c.isDigit = true) :
    substFirst (pre ++ '%' :: '0' :: (ws ++ 'd' :: suf)) i
      = pre ++ (padInt true (digitsToNat ws) i ++ suf) := by
  rw [substFirst_append_no_percent _ _ _ hpre]
  simp [substFirst, parseSpec_eval ws suf hws]

/-- For a non-negative integer the `printf` `%0<w>d` padding is: left-pad the
decimal digit string with zeros up to the width. -/
theorem padInt_nonneg (w : Nat) (i : Int) (h : 0 ≤ i) :
    padInt true w i
      = List.replicate (w - (toString i.natAbs).data.length) '0'
          ++ (toString i.natAbs).data := by
  have hs : ¬(i < 0) := not_lt.mpr h
  unfold padInt
  simp only [if_neg hs, List.nil_append]
  by_cases hw : w ≤ (toString i.natAbs).data.length
  · rw [if_pos hw, Nat.sub_eq_zero_of_le hw]
    simp
  · rw [if_neg hw]
    simp

/-- C4: for every root, folder, well-formed `printf`-style template
`pre ++ "%0" ++ width ++ "d" ++ suf` and non-negative frame index, the frame
path resolver returns exactly
`root + "/" + folder + "/" + (template with the index substituted)`, where the
substitution follows `printf` width/zero-padding semantics: the index's
decimal digits left-padded with zeros up to the width.  The resolver is a
total pure function with no error case. -/
theorem getFrameName_printf_layout (root folder : String) (pre ws suf : List Char)
    (idx : Int) (hpre : '%' ∉ pre) (hws : ∀ c ∈ ws, c.isDigit = true)
    (hidx : 0 ≤ idx) :
    GetFrameName root folder ⟨pre ++ '%' :: '0' :: (ws ++ 'd' :: suf)⟩ idx
      = root ++ "/" ++ folder ++ "/"
          ++ ⟨pre ++ (List.replicate (digitsToNat ws - (toString idx.natAbs).data.length) '0'
                ++ (toString idx.natAbs).data ++ suf)⟩ := by
  show root ++ "/" ++ folder ++ "/"
      ++ (⟨substFirst (pre ++ '%' :: '0' :: (ws ++ 'd' :: suf)) idx⟩ : String) = _
  rw [substFirst_eval pre ws suf idx hpre hws, padInt_nonneg _ _ hidx,
    List.append_assoc]

/-- Witness for C4, at the KITTI left-grayscale template `%06d.png` and frame
index 7: the resolved path is `kitti/00/image_0/000007.png`. -/
theorem getFrameName_printf_layout_witness :
    GetFrameName "kitti/00" "image_0" ⟨[] ++ '%' :: '0' :: (['6'] ++ 'd' :: ".png".data)⟩ 7
      = "kitti/00" ++ "/" ++ "image_0" ++ "/"
          ++ ⟨[] ++ (List.replicate (digitsToNat ['6'] - (toString (7 : Int).natAbs).data.length) '0'
                ++ (toString (7 : Int).natAbs).data ++ ".png".data)⟩ :=
  getFrameName_printf_layout "kitti/00" "image_0" [] ['6'] ".png".data 7
    (by decide) (by decide) (by decide)

/-- `rfindChar` finds nothing exactly on lists not containing the character. -/
theorem rfindChar_eq_none_iff (c : Char) (cs : List Char) :
    rfindChar c cs = none ↔ c ∉ cs := by
  induction cs with
  | nil => simp [rfindChar]
  | cons x xs ih =>
    simp only [rfindChar, List.mem_cons]
    cases hx : rfindChar c xs with
    | some i =>
      have hmem : c ∈ xs := by
        by_contra hm
        rw [ih.mpr hm] at hx
        exact Option.noConfusion hx
      simp [hmem]
    | none =>
      have hnm : c ∉ xs := ih.mp hx
      by_cases hxc : x = c
      · subst hxc
        simp [hnm]
      · simp [hxc, hnm, show ¬(c = x) from fun hcx => hxc hcx.symm]

/-- When `rfindChar` reports index `i`, the list splits as a prefix, the
character at `i`, and a suffix `drop (i+1)` containing no further occurrence. -/
theorem rfindChar_some (c : Char) :
    ∀ (cs : List Char) (i : Nat), rfindChar c cs = some i →
      ∃ pre, cs = pre ++ c :: cs.drop (i + 1) ∧ c ∉ cs.drop (i + 1) := by
  intro cs
  induction cs with
  | nil => intro i h; simp [rfindChar] at h
  | cons x xs ih =>
    intro i h
    simp only [rfindChar] at h
    cases hx : rfindChar c xs with
    | some j =>
      rw [hx] at h
      obtain rfl : j + 1 = i := by injection h
      obtain ⟨pre, hpre, hnot⟩ := ih j hx
      refine ⟨x :: pre, ?_, ?_⟩
      · rw [List.drop_succ_cons]
        rw [List.cons_append]
        exact congrArg (x :: ·) hpre
      · rw [List.drop_succ_cons]
        exact hnot
    | none =>
      rw [hx] at h
      by_cases hxc : x = c
      · rw [if_pos hxc] at h
        obtain rfl : (0 : Nat) = i := by injection h
        refine ⟨[], ?_, ?_⟩
        · simp only [List.drop_succ_cons, List.drop_zero, List.nil_append]
          rw [hxc]
        · simp only [List.drop_succ_cons, List.drop_zero]
          exact (rfindChar_eq_none_iff c xs).mp hx
      · rw [if_neg hxc] at h
        simp at h

/-- C8: when the dataset root contains a `/`, `GetSequenceName` returns
exactly the final path component — the suffix after the last `/`, which itself
contains no `/` — and `GetDatasetIdentifier` is the configured dataset name,
a `-` separator, and that component, in that order. -/
theorem getDatasetIdentifier_spec (s : InputState)
    (h : '/' ∈ s.dataset_folder.data) :
    ('/' :: (GetSequenceName s).data) <:+ s.dataset_folder.data ∧
    '/' ∉ (GetSequenceName s).data ∧
    GetDatasetIdentifier s = s.config.dataset_name ++ "-" ++ GetSequenceName s := by
  refine ⟨?_, ?_, rfl⟩ <;>
  · cases hr : rfindChar '/' s.dataset_folder.data with
    | none => exact absurd h ((rfindChar_eq_none_iff _ _).mp hr)
    | some i =>
      obtain ⟨pre, hpre, hnot⟩ := rfindChar_some '/' s.dataset_folder.data i hr
      have hseq : (GetSequenceName s).data = s.dataset_folder.data.drop (i + 1) := by
        simp [GetSequenceName, hr]
      rw [hseq]
      first
      | exact ⟨pre, hpre.symm⟩
      | exact hnot

/-- A reader whose dataset root is `data/odometry/06`. -/
def stateSeq : InputState := Input.init "data/odometry/06" KittiOdometryConfig 0 calib0 0

/-- Witness for C8 at the root `data/odometry/06`: the sequence name is the
final component and the identifier is `name-component`. -/
theorem getDatasetIdentifier_spec_witness :
    ('/' :: (GetSequenceName stateSeq).data) <:+ stateSeq.dataset_folder.data ∧
    '/' ∉ (GetSequenceName stateSeq).data ∧
    GetDatasetIdentifier stateSeq
      = stateSeq.config.dataset_name ++ "-" ++ GetSequenceName stateSeq :=
  getDatasetIdentifier_spec stateSeq (by decide)

/-- The last occurrence of `c` in `pre ++ [c]` is at index `pre.length`. -/
theorem rfindChar_append_last (c : Char) (pre : List Char) :
    rfindChar c (pre ++ [c]) = some pre.length := by
  induction pre with
  | nil => simp [rfindChar]
  | cons x t ih => simp [rfindChar, ih]

/-- C10: edge cases of sequence-name extraction.  When the dataset root
contains no `/`, `rfind` returns `npos` and the `npos + 1` wraparound makes
`GetSequenceName` return the entire root string; when the root ends in `/`,
`GetSequenceName` returns the empty string and `GetDatasetIdentifier`
therefore ends with a trailing `-`. -/
theorem getSequenceName_edge_cases (s : InputState) :
    ('/' ∉ s.dataset_folder.data → GetSequenceName s = s.dataset_folder) ∧
    (∀ pre : List Char, s.dataset_folder.data = pre ++ ['/'] →
      GetSequenceName s = "" ∧
      (GetDatasetIdentifier s).data = s.config.dataset_name.data ++ ['-']) := by
  constructor
  · intro h
    have hr : rfindChar '/' s.dataset_folder.data = none :=
      (rfindChar_eq_none_iff _ _).mpr h
    unfold GetSequenceName
    rw [hr]
    rfl
  · intro pre hpre
    have hr : rfindChar '/' s.dataset_folder.data = some pre.length := by
      rw [hpre]
      exact rfindChar_append_last '/' pre
    have hseq : GetSequenceName s = "" := by
      unfold GetSequenceName
      rw [hr, hpre]
      have hdrop : (pre ++ ['/']).drop (pre.length + 1) = [] := by
        apply List.drop_eq_nil_of_le
        simp
      rw [hdrop]
    refine ⟨hseq, ?_⟩
    show (s.config.dataset_name ++ "-" ++ GetSequenceName s).data = _
    rw [hseq, String.data_append, String.data_append]
    simp

/-- A reader whose dataset root ends in a slash. -/
def stateSlash : InputState := Input.init "odo/seq/" KittiOdometryConfig 0 calib0 0

/-- A reader whose dataset root contains no slash. -/
def stateNoSlash : InputState := Input.init "dataset00" KittiOdometryConfig 0 calib0 0

/-- Witness for C10: `dataset00` yields itself as sequence name; `odo/seq/`
yields the empty sequence name and an identifier ending in `-`. -/
theorem getSequenceName_edge_cases_witness :
    GetSequenceName stateNoSlash = stateNoSlash.dataset_folder ∧
    GetSequenceName stateSlash = "" ∧
    (GetDatasetIdentifier stateSlash).data
      = stateSlash.config.dataset_name.data ++ ['-'] := by
  refine ⟨(getSequenceName_edge_cases stateNoSlash).1 (by decide), ?_, ?_⟩
  · exact ((getSequenceName_edge_cases stateSlash).2 "odo/seq".data (by decide)).1
  · exact ((getSequenceName_edge_cases stateSlash).2 "odo/seq".data (by decide)).2

end DynSLAM
